import Mathlib

/-!
Verification of the response-listing model and process-graph builder of the
`openeo-python-client` repository, as specified in its natural-language spec.

The embedding models JSON values as an inductive type, Python dicts as
association lists (`Dict`), and the listing-response classes of
`openeo/rest/models/general.py` as Lean structures whose construction
functions mirror the Python `__init__` bodies line by line.  Failure of a
mandatory dict subscript (`data["key"]` in Python) is modelled by returning
`Except.error (MissingFieldError key)`.
-/

/-- JSON-like values, the payloads of parsed API responses. -/
inductive JValue where
  | null : JValue
  | bool : Bool → JValue
  | num : Int → JValue
  | str : String → JValue
  | arr : List JValue → JValue
  | obj : List (String × JValue) → JValue

/-- A Python dict with string keys, as an association list (first binding wins,
matching Python's unique keys). -/
abbrev Dict := List (String × JValue)

/-- `d.get(k)` / `k in d`: first value bound to `k`, if any. -/
def Dict.get? (d : Dict) (k : String) : Option JValue :=
  List.lookup k d

/-- Error raised when a mandatory key is absent from a parsed mapping
(Python: the exception escaping a `data["key"]` subscript). -/
structure MissingFieldError where
  field : String
deriving Repr, DecidableEq

/-- Mandatory subscript `d[k]`: the value, or a `MissingFieldError` naming the key. -/
def Dict.getE (d : Dict) (k : String) : Except MissingFieldError JValue :=
  match d.get? k with
  | some v => Except.ok v
  | none => Except.error ⟨k⟩

/-- View a JSON value as a list (`list(v)` over an array value).  Responses feed
only array-valued fields here; a non-array (a Python `TypeError` situation,
outside the modelled fragment) yields the empty list. -/
def JValue.asArr : JValue → List JValue
  | .arr l => l
  | _ => []

/-- View a JSON value as a dict.  Responses feed only object-valued entries
here; a non-object (a Python `TypeError` situation, outside the modelled
fragment) yields the empty dict. -/
def JValue.asObj : JValue → Dict
  | .obj o => o
  | _ => []

/-- `v.get(k)` on a JSON value that is used as a dict (Python
`log.get("level")`): `none` when the key is absent. -/
def JValue.getD? (v : JValue) (k : String) : Option JValue :=
  v.asObj.get? k

/-- `d.get(k, [])` for an array-valued field (Python
`response_data.get("logs", [])`): the array's elements, or `[]` when absent. -/
def Dict.getArrD (d : Dict) (k : String) : List JValue :=
  match d.get? k with
  | some v => v.asArr
  | none => []

/-- Case folding used by the log-level normalization (Python `str.upper()` on
ASCII level names). -/
def upString (s : String) : String :=
  ⟨s.data.map Char.toUpper⟩

/-!
## Link (`openeo/rest/models/general.py`, `class Link`)

A frozen dataclass; `from_dict` reads the mandatory `rel`/`href` subscripts
and the optional `type`/`title` keys.  The dataclass itself performs no type
validation, so the field payloads stay `JValue`.
-/

/-- Container for (web) link data (`@dataclass(frozen=True) class Link`). -/
structure Link where
  rel : JValue
  href : JValue
  type : Option JValue
  title : Option JValue

/-- `Link.from_dict(data)`: build a `Link` from a parsed JSON mapping;
`data["rel"]` and `data["href"]` are mandatory subscripts, `type`/`title`
default to absent. -/
def Link.from_dict (data : Dict) : Except MissingFieldError Link := do
  let rel ← data.getE "rel"
  let href ← data.getE "href"
  return { rel := rel, href := href, type := data.get? "type", title := data.get? "title" }

/-!
## Log level normalization (`openeo/rest/models/logs.py`, not under `src/`)
-/

/-- Severity rank of unknown or missing log levels (the normalization
fallback, sorting as lowest severity, same rank as `debug`). -/
def fallbackLogRank : Nat := 10

/-- Modelled from the spec: `normalize_log_level` from
`openeo.rest.models.logs` (the module is not under `src/`).  Per §4.3 it is a
total, case-insensitive, pure map from the level strings
`{error, warning, info, debug}` to an ordered severity scale
(error > warning > info > debug), with unknown strings — and here also a
missing or non-string level value — mapped to the fallback rank, which sorts
as lowest severity. -/
def normalize_log_level (level : Option JValue) : Nat :=
  match level with
  | some (.str s) =>
    let u := upString s
    if u = "ERROR" then 40
    else if u = "WARNING" then 30
    else if u = "INFO" then 20
    else if u = "DEBUG" then 10
    else fallbackLogRank
  | _ => fallbackLogRank

/-- Modelled from the spec: `LogEntry` from `openeo.rest.models.logs` (not
under `src/`), a normalized view wrapping one raw log mapping (§3). -/
structure LogEntry where
  raw : JValue

/-- The `accept_level` predicate closed over the requested level in
`LogsResponse.__init__` (the `functools.lru_cache` is transparent for this
pure function): a level value is accepted iff its normalized severity is at
least that of the requested minimum. -/
def accept_level (log_level : String) (level : Option JValue) : Bool :=
  normalize_log_level level ≥ normalize_log_level (some (.str log_level))

/-!
## Listing responses (`openeo/rest/models/general.py`)

Each Python class subclasses `list`: `__init__` stores the raw response
mapping in `self._data` and materializes the list contents via
`super().__init__(...)`.  The embedding keeps both: `data` is the retained
(aliased) mapping and `elems`/`entries` the materialized list storage.
Python mutation of the aliased mapping after construction changes what
`_data` refers to but not the materialized list storage; it is modelled by
the `withData` update, which replaces `data` and leaves the list field.
The federation warning side effect (`warn_on_federation_missing`) alters no
modelled state and is omitted.
-/

/-- `CollectionListingResponse`: list-like container for a `GET /collections`
response. -/
structure CollectionListingResponse where
  data : Dict
  elems : List JValue

/-- `CollectionListingResponse.__init__`: retain the mapping and materialize
`response_data["collections"]` (a mandatory subscript) as the list
contents. -/
def CollectionListingResponse.init (response_data : Dict) :
    Except MissingFieldError CollectionListingResponse :=
  match response_data.get? "collections" with
  | some v => Except.ok ⟨response_data, v.asArr⟩
  | none => Except.error ⟨"collections"⟩

/-- Later mutation of the response mapping aliased by `_data`. -/
def CollectionListingResponse.withData (r : CollectionListingResponse) (d : Dict) :
    CollectionListingResponse :=
  { r with data := d }

/-- `ProcessListingResponse`: list-like container for a `GET /processes`
response. -/
structure ProcessListingResponse where
  data : Dict
  elems : List JValue

/-- `ProcessListingResponse.__init__`: retain the mapping and materialize
`response_data["processes"]` (a mandatory subscript) as the list contents. -/
def ProcessListingResponse.init (response_data : Dict) :
    Except MissingFieldError ProcessListingResponse :=
  match response_data.get? "processes" with
  | some v => Except.ok ⟨response_data, v.asArr⟩
  | none => Except.error ⟨"processes"⟩

/-- Later mutation of the response mapping aliased by `_data`. -/
def ProcessListingResponse.withData (r : ProcessListingResponse) (d : Dict) :
    ProcessListingResponse :=
  { r with data := d }

/-- `JobListingResponse`: list-like container for a `GET /jobs` response. -/
structure JobListingResponse where
  data : Dict
  elems : List JValue

/-- `JobListingResponse.__init__`: retain the mapping and materialize
`response_data["jobs"]` (a mandatory subscript) as the list contents. -/
def JobListingResponse.init (response_data : Dict) :
    Except MissingFieldError JobListingResponse :=
  match response_data.get? "jobs" with
  | some v => Except.ok ⟨response_data, v.asArr⟩
  | none => Except.error ⟨"jobs"⟩

/-- Later mutation of the response mapping aliased by `_data`. -/
def JobListingResponse.withData (r : JobListingResponse) (d : Dict) :
    JobListingResponse :=
  { r with data := d }

/-- `LogsResponse`: list-like container for a job/service logs response. -/
structure LogsResponse where
  data : Dict
  entries : List LogEntry

/-- `LogsResponse.__init__`: retain the mapping, take
`response_data.get("logs", [])`, apply the extra client-side level filter
when a truthy `log_level` is requested and the backend-reported `"level"`
field is absent or does not already satisfy it, and materialize the retained
entries wrapped as `LogEntry`.  `log_level = none` models Python `None`,
`some ""` the falsy empty string. -/
def LogsResponse.init (response_data : Dict) (log_level : Option String) : LogsResponse :=
  let logs := response_data.getArrD "logs"
  let logs :=
    match log_level with
    | none => logs
    | some ll =>
      if ll = "" then logs
      else
        match response_data.get? "level" with
        | none =>
          -- Backend does not list effective lowest level
          logs.filter (fun log => accept_level ll (log.getD? "level"))
        | some v =>
          -- Or effective lowest level is still too low
          if accept_level ll (some v) then logs
          else logs.filter (fun log => accept_level ll (log.getD? "level"))
  ⟨response_data, logs.map LogEntry.mk⟩

/-- Later mutation of the response mapping aliased by `_data`. -/
def LogsResponse.withData (r : LogsResponse) (d : Dict) : LogsResponse :=
  { r with data := d }

/-- The `logs` property: `return self`, i.e. the container's own materialized
sequence of log entries. -/
def LogsResponse.logs (r : LogsResponse) : List LogEntry :=
  r.entries

/-- Element-wise effectful map: evaluate `f` on each element in order and
collect the results, propagating the first raised error (the behaviour of a
Python list comprehension whose body may raise). -/
def mapME {α β ε : Type} (f : α → Except ε β) : List α → Except ε (List β)
  | [] => Except.ok []
  | a :: t => do
    let b ← f a
    let bs ← mapME f t
    return b :: bs

/-- Shared body of the `links` property of all four listing classes:
`[Link.from_dict(d) for d in self._data.get("links", [])]`. -/
def linksOf (data : Dict) : Except MissingFieldError (List Link) :=
  mapME (fun d => Link.from_dict d.asObj) (data.getArrD "links")

/-- `CollectionListingResponse.links`. -/
def CollectionListingResponse.links (r : CollectionListingResponse) :
    Except MissingFieldError (List Link) :=
  linksOf r.data

/-- `ProcessListingResponse.links`. -/
def ProcessListingResponse.links (r : ProcessListingResponse) :
    Except MissingFieldError (List Link) :=
  linksOf r.data

/-- `JobListingResponse.links`. -/
def JobListingResponse.links (r : JobListingResponse) :
    Except MissingFieldError (List Link) :=
  linksOf r.data

/-- `LogsResponse.links`. -/
def LogsResponse.links (r : LogsResponse) : Except MissingFieldError (List Link) :=
  linksOf r.data

/-!
## Process graph builder (`openeo/rest/datacube.py`, not under `src/`)

Only the tests of the builder (`src/tests/rest/datacube/test_zonal_stats.py`)
are in the sample.  The builder itself is modelled from the spec: §4.5 (one
node appended per chained operation, parameters referencing the prior node),
§6 (serialization as a mapping from node id to
`{"process_id": ..., "arguments": ..., "result": ...}` with exactly one
result node; callbacks as `{"process_graph": ...}`), and §4.5's edge-case
policy (a geometry given as a file path is encoded as a dedicated
"read vector from path" node that the consuming node references, instead of
inlined coordinates).
-/

/-- A serialized process-graph node: named process, argument bindings,
result flag. -/
structure PGNode where
  process_id : String
  arguments : List (String × JValue)
  result : Bool

/-- A serialized process graph: mapping from node id to node. -/
abbrev PGraph := List (String × PGNode)

/-- How the geometry argument of a spatial aggregation is supplied:
inline GeoJSON geometry, or a path to a vector file. -/
inductive GeometrySource where
  | inlineGeo (geojson : JValue)
  | path (p : String)

/-- Modelled from the spec: intermediate state of the fluent builder chain —
the nodes appended so far and the id of the node produced by the prior step
(§4.5: single-parent chain). -/
structure CubeBuilder where
  nodes : PGraph
  lastId : String

/-- Modelled from the spec: `connection.load_collection(cid)` starts a chain
with one `load_collection` node. -/
def load_collection (cid : String) : CubeBuilder :=
  ⟨[("loadcollection1",
      ⟨"load_collection",
        [("id", .str cid), ("spatial_extent", .null), ("temporal_extent", .null)],
        false⟩)],
    "loadcollection1"⟩

/-- Modelled from the spec: `.filter_bbox(west, east, north, south)` appends a
`filter_bbox` node whose `data` argument references the prior node. -/
def filter_bbox (cb : CubeBuilder) (west east north south : Int) : CubeBuilder :=
  ⟨cb.nodes ++
      [("filterbbox1",
        ⟨"filter_bbox",
          [("data", .obj [("from_node", .str cb.lastId)]),
           ("extent",
             .obj [("west", .num west), ("east", .num east),
                   ("north", .num north), ("south", .num south)])],
          false⟩)],
    "filterbbox1"⟩

/-- Callback serialization for a built-in reducer name (§6): a nested
`process_graph` with a single node applying the named process to the bound
`data` parameter (§4.5's `Parameter` placeholder). -/
def reducerCallback (reducer : String) : JValue :=
  .obj [("process_graph",
    .obj [(reducer ++ "1",
      .obj [("process_id", .str reducer),
            ("arguments", .obj [("data", .obj [("from_parameter", .str "data")])]),
            ("result", .bool true)])])]

/-- The spatial-aggregation node shared by both geometry sourcings: only the
`geometries` argument depends on how the geometry was supplied. -/
def aggregateNode (fromId : String) (geometries : JValue) (reducer : String) : PGNode :=
  ⟨"aggregate_spatial",
    [("data", .obj [("from_node", .str fromId)]),
     ("geometries", geometries),
     ("reducer", reducerCallback reducer)],
    false⟩

/-- Modelled from the spec: `.aggregate_spatial(geometries, reducer)`.  An
inline geometry is embedded as the `geometries` argument; a file path is
encoded as a dedicated `read_vector` node which the aggregation node
references (§4.5 edge-case policy). -/
def aggregate_spatial (cb : CubeBuilder) (geometries : GeometrySource) (reducer : String) :
    CubeBuilder :=
  match geometries with
  | .inlineGeo g =>
    ⟨cb.nodes ++ [("aggregatespatial1", aggregateNode cb.lastId g reducer)],
      "aggregatespatial1"⟩
  | .path p =>
    ⟨cb.nodes ++
        [("readvector1", ⟨"read_vector", [("filename", .str p)], false⟩),
         ("aggregatespatial1",
           aggregateNode cb.lastId (.obj [("from_node", .str "readvector1")]) reducer)],
      "aggregatespatial1"⟩

/-- Serialize the chain: the node produced by the final step is flagged as
the graph's single result node (§4.5 invariant). -/
def CubeBuilder.flatten (cb : CubeBuilder) : PGraph :=
  cb.nodes.map (fun kv => if kv.1 = cb.lastId then (kv.1, { kv.2 with result := true }) else kv)

/-- The builder chain of the zonal-statistics tests:
load collection → bounding-box filter → spatial aggregation, serialized. -/
def zonalStatsGraph (cid : String) (west east north south : Int)
    (geometries : GeometrySource) (reducer : String) : PGraph :=
  (aggregate_spatial (filter_bbox (load_collection cid) west east north south)
    geometries reducer).flatten

/-!
## Helper lemmas
-/

/-- Characterization of a successful `Link.from_dict`: the mandatory keys are
present with the resulting field values, and `type`/`title` are exactly the
optional lookups. -/
theorem Link.from_dict_ok_iff (d : Dict) (lk : Link) :
    Link.from_dict d = Except.ok lk ↔
      d.get? "rel" = some lk.rel ∧ d.get? "href" = some lk.href ∧
      lk.type = d.get? "type" ∧ lk.title = d.get? "title" := by
  obtain ⟨rel, href, ty, ti⟩ := lk
  simp only [Link.from_dict, Dict.getE]
  cases hr : d.get? "rel" <;> cases hh : d.get? "href" <;>
    simp [Bind.bind, Except.bind, Pure.pure, Except.pure, Link.mk.injEq, and_assoc, eq_comm]

/-- `Link.from_dict` fails exactly when `rel` or `href` is absent. -/
theorem Link.from_dict_error_iff (d : Dict) :
    (∃ e, Link.from_dict d = Except.error e) ↔
      (d.get? "rel" = none ∨ d.get? "href" = none) := by
  simp only [Link.from_dict, Dict.getE]
  cases hr : d.get? "rel" <;> cases hh : d.get? "href" <;>
    simp [Bind.bind, Except.bind, Pure.pure, Except.pure]

/-- A `mapME` whose steps all succeed succeeds, pairing inputs with outputs
elementwise. -/
theorem mapME_ok_of_forall_ok {α β ε : Type} (f : α → Except ε β) :
    ∀ l : List α, (∀ a ∈ l, ∃ b, f a = Except.ok b) →
      ∃ bs, mapME f l = Except.ok bs ∧
        List.Forall₂ (fun a b => f a = Except.ok b) l bs := by
  intro l
  induction l with
  | nil => intro _; exact ⟨[], rfl, List.Forall₂.nil⟩
  | cons a t ih =>
    intro h
    obtain ⟨b, hb⟩ := h a (List.mem_cons_self a t)
    obtain ⟨bs, hbs, hall⟩ := ih (fun x hx => h x (List.mem_cons_of_mem a hx))
    refine ⟨b :: bs, ?_, List.Forall₂.cons hb hall⟩
    simp [mapME, Bind.bind, Except.bind, Pure.pure, Except.pure, hb, hbs]

/-- When a truthy level is requested and the backend-reported `"level"` field
already satisfies it, `LogsResponse.__init__` skips client-side filtering. -/
theorem LogsResponse.init_entries_skip (d : Dict) (ll : String) (v : JValue)
    (hll : ll ≠ "") (hv : d.get? "level" = some v)
    (hacc : accept_level ll (some v) = true) :
    (LogsResponse.init d (some ll)).entries = (d.getArrD "logs").map LogEntry.mk := by
  simp [LogsResponse.init, hll, hv, hacc]

/-- When a truthy level is requested and the backend-reported `"level"` field
is absent or too low, `LogsResponse.__init__` filters client-side with
`accept_level` on each entry's own `level` key. -/
theorem LogsResponse.init_entries_filter (d : Dict) (ll : String) (hll : ll ≠ "")
    (hcase : d.get? "level" = none ∨
      ∃ v, d.get? "level" = some v ∧ accept_level ll (some v) = false) :
    (LogsResponse.init d (some ll)).entries
      = ((d.getArrD "logs").filter
          (fun log => accept_level ll (log.getD? "level"))).map LogEntry.mk := by
  rcases hcase with hn | ⟨v, hv, hacc⟩
  · simp [LogsResponse.init, hll, hn]
  · simp [LogsResponse.init, hll, hv, hacc]

/-- Wrapped membership in a wrapped filtered list is membership in the filter
(`LogEntry.mk` is injective). -/
theorem mem_map_mk_filter_iff (l : List JValue) (p : JValue → Bool) (log : JValue)
    (hlog : log ∈ l) :
    LogEntry.mk log ∈ (l.filter p).map LogEntry.mk ↔ p log = true := by
  constructor
  · intro h
    obtain ⟨a, ha, hae⟩ := List.mem_map.mp h
    cases LogEntry.mk.injEq a log ▸ hae
    exact (List.mem_filter.mp ha).2
  · intro h
    exact List.mem_map.mpr ⟨log, List.mem_filter.mpr ⟨hlog, h⟩, rfl⟩

/-!
## The claims
-/

/-- Claim C1: when a `LogsResponse` is constructed with a requested minimum
level and client-side filtering takes place (the backend-reported `"level"`
field is absent or strictly below the requested minimum), a raw log entry is
retained iff the normalized severity of its own `level` key is at least the
normalized severity of the requested minimum; a missing level key normalizes
to the fallback rank and goes through the very same rule. -/
theorem LogsResponse.client_filter_rule (d : Dict) (ll : String) (hll : ll ≠ "")
    (hfilter : d.get? "level" = none ∨
      ∀ v, d.get? "level" = some v →
        normalize_log_level (some v) < normalize_log_level (some (JValue.str ll))) :
    (LogsResponse.init d (some ll)).entries
      = ((d.getArrD "logs").filter
          (fun log =>
            normalize_log_level (log.getD? "level")
              ≥ normalize_log_level (some (JValue.str ll)))).map LogEntry.mk ∧
    (∀ log ∈ d.getArrD "logs",
      LogEntry.mk log ∈ (LogsResponse.init d (some ll)).entries ↔
        normalize_log_level (log.getD? "level")
          ≥ normalize_log_level (some (JValue.str ll))) ∧
    normalize_log_level none = fallbackLogRank := by
  have hmain : (LogsResponse.init d (some ll)).entries
      = ((d.getArrD "logs").filter
          (fun log => accept_level ll (log.getD? "level"))).map LogEntry.mk := by
    refine LogsResponse.init_entries_filter d ll hll ?_
    rcases hfilter with hn | hlow
    · exact Or.inl hn
    · cases hv : d.get? "level" with
      | none => exact Or.inl rfl
      | some v =>
        refine Or.inr ⟨v, rfl, ?_⟩
        simpa [accept_level] using not_le.mpr (hlow v hv)
  refine ⟨hmain, fun log hlog => ?_, rfl⟩
  rw [hmain, mem_map_mk_filter_iff _ _ _ hlog]
  simp [accept_level]

/-- Witness for C1: a response with no backend-reported `"level"`, one
`info` entry and one entry with no level key, requested minimum `warning`:
the filtering rule applies, both entries are dropped; with requested minimum
`debug` the level-less entry is retained via the fallback rank. -/
theorem LogsResponse.client_filter_rule_witness :
    ("warning" : String) ≠ "" ∧
    Dict.get? [("logs", .arr [.obj [("level", .str "info")], .obj []])] "level" = none ∧
    ((LogsResponse.init [("logs", .arr [.obj [("level", .str "info")], .obj []])]
        (some "warning")).entries
      = ((Dict.getArrD [("logs", .arr [.obj [("level", .str "info")], .obj []])] "logs").filter
          (fun log =>
            normalize_log_level (log.getD? "level")
              ≥ normalize_log_level (some (JValue.str "warning")))).map LogEntry.mk ∧
      (∀ log ∈ Dict.getArrD [("logs", .arr [.obj [("level", .str "info")], .obj []])] "logs",
        LogEntry.mk log ∈ (LogsResponse.init
            [("logs", .arr [.obj [("level", .str "info")], .obj []])] (some "warning")).entries ↔
          normalize_log_level (log.getD? "level")
            ≥ normalize_log_level (some (JValue.str "warning"))) ∧
      normalize_log_level none = fallbackLogRank) ∧
    (LogsResponse.init [("logs", .arr [.obj [("level", .str "info")], .obj []])]
        (some "warning")).entries = [] ∧
    (LogsResponse.init [("logs", .arr [.obj [("level", .str "info")], .obj []])]
        (some "debug")).entries
      = [LogEntry.mk (.obj [("level", .str "info")]), LogEntry.mk (.obj [])] :=
  ⟨by decide, rfl,
    LogsResponse.client_filter_rule
      [("logs", .arr [.obj [("level", .str "info")], .obj []])] "warning"
      (by decide) (Or.inl rfl),
    rfl, rfl⟩

/-- Claim C2: constructing a `LogsResponse` with a requested minimum level
skips client-side filtering exactly when the response carries a top-level
`"level"` field whose normalized severity already satisfies the requested
minimum (then every raw entry is retained); when the key is absent or the
reported severity is too low, client-side filtering is applied. -/
theorem LogsResponse.backend_level_optimization (d : Dict) (ll : String) (hll : ll ≠ "") :
    (∀ v, d.get? "level" = some v →
      normalize_log_level (some v) ≥ normalize_log_level (some (JValue.str ll)) →
      (LogsResponse.init d (some ll)).entries = (d.getArrD "logs").map LogEntry.mk) ∧
    (d.get? "level" = none →
      (LogsResponse.init d (some ll)).entries
        = ((d.getArrD "logs").filter
            (fun log => accept_level ll (log.getD? "level"))).map LogEntry.mk) ∧
    (∀ v, d.get? "level" = some v →
      normalize_log_level (some v) < normalize_log_level (some (JValue.str ll)) →
      (LogsResponse.init d (some ll)).entries
        = ((d.getArrD "logs").filter
            (fun log => accept_level ll (log.getD? "level"))).map LogEntry.mk) := by
  refine ⟨fun v hv hge => ?_, fun hn => ?_, fun v hv hlt => ?_⟩
  · exact LogsResponse.init_entries_skip d ll v hll hv (by simpa [accept_level] using hge)
  · exact LogsResponse.init_entries_filter d ll hll (Or.inl hn)
  · refine LogsResponse.init_entries_filter d ll hll
      (Or.inr ⟨v, hv, by simpa [accept_level] using not_le.mpr hlt⟩)

/-- Witness for C2: the spec's own scenario — reported `level="warning"`,
requested filter `"info"`: no entry is dropped, even one whose own level
(`debug`) is below the requested minimum. -/
theorem LogsResponse.backend_level_optimization_witness :
    ("info" : String) ≠ "" ∧
    Dict.get? [("level", .str "warning"), ("logs", .arr [.obj [("level", .str "debug")]])]
        "level" = some (.str "warning") ∧
    normalize_log_level (some (.str "warning"))
      ≥ normalize_log_level (some (JValue.str "info")) ∧
    (LogsResponse.init
        [("level", .str "warning"), ("logs", .arr [.obj [("level", .str "debug")]])]
        (some "info")).entries
      = (Dict.getArrD
          [("level", .str "warning"), ("logs", .arr [.obj [("level", .str "debug")]])]
          "logs").map LogEntry.mk :=
  ⟨by decide, rfl, by decide,
    (LogsResponse.backend_level_optimization
        [("level", .str "warning"), ("logs", .arr [.obj [("level", .str "debug")]])]
        "info" (by decide)).1
      (.str "warning") rfl (by decide)⟩

/-- Claim C6: filtering by a level is idempotent — constructing a filtered
`LogsResponse` from a response whose `logs` array is the result of an earlier
client-side filter by the same level retains every entry, whether or not the
second response reports a backend `"level"`. -/
theorem LogsResponse.refilter_same_level_retains_all (l : List JValue) (ll : String)
    (d2 : Dict) (hll : ll ≠ "")
    (hlogs : d2.get? "logs"
      = some (JValue.arr (l.filter (fun log => accept_level ll (log.getD? "level"))))) :
    (LogsResponse.init d2 (some ll)).entries
      = (l.filter (fun log => accept_level ll (log.getD? "level"))).map LogEntry.mk := by
  have harr : d2.getArrD "logs"
      = l.filter (fun log => accept_level ll (log.getD? "level")) := by
    simp [Dict.getArrD, hlogs, JValue.asArr]
  cases hv : d2.get? "level" with
  | none =>
    rw [LogsResponse.init_entries_filter d2 ll hll (Or.inl hv), harr,
      List.filter_filter]
    simp
  | some v =>
    by_cases hacc : accept_level ll (some v) = true
    · rw [LogsResponse.init_entries_skip d2 ll v hll hv hacc, harr]
    · rw [LogsResponse.init_entries_filter d2 ll hll
        (Or.inr ⟨v, hv, Bool.eq_false_iff.mpr (fun h => hacc h)⟩), harr,
        List.filter_filter]
      simp

/-- Witness for C6: re-filtering an already-filtered logs array (the
`warning` entry surviving a `warning` filter over three entries) by the same
level keeps every entry. -/
theorem LogsResponse.refilter_same_level_retains_all_witness :
    ("warning" : String) ≠ "" ∧
    Dict.get? [("logs", .arr [.obj [("level", .str "warning")],
        .obj [("level", .str "error")]])] "logs"
      = some (JValue.arr
          ([JValue.obj [("level", .str "warning")], .obj [("level", .str "info")],
            .obj [("level", .str "error")]].filter
            (fun log => accept_level "warning" (log.getD? "level")))) ∧
    (LogsResponse.init [("logs", .arr [.obj [("level", .str "warning")],
        .obj [("level", .str "error")]])] (some "warning")).entries
      = ([JValue.obj [("level", .str "warning")], .obj [("level", .str "info")],
          .obj [("level", .str "error")]].filter
          (fun log => accept_level "warning" (log.getD? "level"))).map LogEntry.mk :=
  ⟨by decide, rfl,
    LogsResponse.refilter_same_level_retains_all
      [JValue.obj [("level", .str "warning")], .obj [("level", .str "info")],
        .obj [("level", .str "error")]] "warning"
      [("logs", .arr [.obj [("level", .str "warning")], .obj [("level", .str "error")]])]
      (by decide) rfl⟩

/-- Claim C9: the `logs` property of `LogsResponse` returns the container's own
materialized `LogEntry` sequence (`return self`); it never re-reads the raw
retained mapping, so mutating that mapping afterwards leaves it unchanged. -/
theorem LogsResponse.logs_is_self (r : LogsResponse) :
    r.logs = r.entries ∧ ∀ d : Dict, (r.withData d).logs = r.logs :=
  ⟨rfl, fun _ => rfl⟩

/-- Claim C10: a falsy `log_level` (Python `None` or the empty string) disables
client-side filtering entirely: every entry of the raw `logs` array is
wrapped as a `LogEntry` and retained, whatever the entries' levels and the
top-level `"level"` field are. -/
theorem LogsResponse.falsy_log_level_no_filtering (d : Dict) :
    (LogsResponse.init d none).entries = (d.getArrD "logs").map LogEntry.mk ∧
    (LogsResponse.init d (some "")).entries = (d.getArrD "logs").map LogEntry.mk :=
  ⟨rfl, rfl⟩

/-- Claim C4: `Link.from_dict` raises `MissingFieldError` iff `rel` or `href` is
absent, and for a mapping with both keys it returns the link with those
values and `type`/`title` defaulting to the optional lookups (absent when
missing). -/
theorem Link.from_dict_spec (d : Dict) :
    ((∃ e, Link.from_dict d = Except.error e) ↔
      (d.get? "rel" = none ∨ d.get? "href" = none)) ∧
    (∀ r h, d.get? "rel" = some r → d.get? "href" = some h →
      Link.from_dict d = Except.ok ⟨r, h, d.get? "type", d.get? "title"⟩) := by
  refine ⟨Link.from_dict_error_iff d, fun r h hr hh => ?_⟩
  exact (Link.from_dict_ok_iff d ⟨r, h, d.get? "type", d.get? "title"⟩).mpr
    ⟨hr, hh, rfl, rfl⟩

/-- Witness for C4: a concrete mapping with `rel` and `href` but no `type` or
`title` yields exactly that link. -/
theorem Link.from_dict_spec_witness :
    Dict.get? [("rel", .str "self"), ("href", .str "https://oeo.test")] "rel"
        = some (.str "self") ∧
    Dict.get? [("rel", .str "self"), ("href", .str "https://oeo.test")] "href"
        = some (.str "https://oeo.test") ∧
    Link.from_dict [("rel", .str "self"), ("href", .str "https://oeo.test")]
        = Except.ok ⟨.str "self", .str "https://oeo.test", none, none⟩ :=
  ⟨rfl, rfl,
    (Link.from_dict_spec [("rel", .str "self"), ("href", .str "https://oeo.test")]).2
      (.str "self") (.str "https://oeo.test") rfl rfl⟩

/-- Counterexample to C3 as stated: constructing a `LogsResponse` from a
mapping in which the mandatory primary array key `"logs"` is absent does not
raise anything — `LogsResponse.__init__` reads the key with
`response_data.get("logs", [])` and succeeds with an empty sequence (its
construction is total, unlike the other three listing types). -/
theorem LogsResponse.init_missing_logs_key_succeeds :
    Dict.get? [("links", .arr [])] "logs" = none ∧
    LogsResponse.init [("links", .arr [])] none
      = ⟨[("links", .arr [])], []⟩ ∧
    LogsResponse.init [("links", .arr [])] (some "error")
      = ⟨[("links", .arr [])], []⟩ :=
  ⟨rfl, rfl, rfl⟩

/-- Claim C3 (amended): constructing `CollectionListingResponse`,
`ProcessListingResponse` or `JobListingResponse` from a mapping in which the
mandatory primary array key is absent raises a `MissingFieldError`;
`LogsResponse`, whose `logs` key is read with a defaulting `get`, instead
succeeds with an empty sequence. -/
theorem listing_missing_primary_key (d : Dict) :
    (d.get? "collections" = none →
      CollectionListingResponse.init d = Except.error ⟨"collections"⟩) ∧
    (d.get? "processes" = none →
      ProcessListingResponse.init d = Except.error ⟨"processes"⟩) ∧
    (d.get? "jobs" = none →
      JobListingResponse.init d = Except.error ⟨"jobs"⟩) ∧
    (∀ ll, d.get? "logs" = none → (LogsResponse.init d ll).entries = []) := by
  refine ⟨fun hc => ?_, fun hp => ?_, fun hj => ?_, fun ll hl => ?_⟩
  · simp [CollectionListingResponse.init, hc]
  · simp [ProcessListingResponse.init, hp]
  · simp [JobListingResponse.init, hj]
  · have harr : d.getArrD "logs" = [] := by simp [Dict.getArrD, hl]
    cases ll with
    | none => simp [LogsResponse.init, harr]
    | some s =>
      by_cases hs : s = ""
      · simp [LogsResponse.init, harr, hs]
      · cases hv : d.get? "level" with
        | none => simp [LogsResponse.init, harr, hs, hv]
        | some v => by_cases hacc : accept_level s (some v) = true <;>
            simp [LogsResponse.init, harr, hs, hv, hacc]

/-- Witness for C3 (amended): on the empty mapping all three strict listing
types fail with the respective `MissingFieldError` and the logs listing is
empty. -/
theorem listing_missing_primary_key_witness :
    Dict.get? [] "collections" = none ∧
    Dict.get? [] "processes" = none ∧
    Dict.get? [] "jobs" = none ∧
    Dict.get? [] "logs" = none ∧
    CollectionListingResponse.init [] = Except.error ⟨"collections"⟩ ∧
    ProcessListingResponse.init [] = Except.error ⟨"processes"⟩ ∧
    JobListingResponse.init [] = Except.error ⟨"jobs"⟩ ∧
    (LogsResponse.init [] (some "info")).entries = [] :=
  ⟨rfl, rfl, rfl, rfl,
    (listing_missing_primary_key []).1 rfl,
    (listing_missing_primary_key []).2.1 rfl,
    (listing_missing_primary_key []).2.2.1 rfl,
    (listing_missing_primary_key []).2.2.2 (some "info") rfl⟩

/-- Counterexample to C5 as stated: for a client-side filtered
`LogsResponse`, the materialized sequence is not "exactly the elements of the
named primary array" — here the `logs` array has one entry but the filtered
sequence is empty. -/
theorem LogsResponse.filtered_not_whole_array :
    (LogsResponse.init [("logs", .arr [.obj [("level", .str "debug")]])]
        (some "error")).entries = [] ∧
    Dict.getArrD [("logs", .arr [.obj [("level", .str "debug")]])] "logs"
      = [.obj [("level", .str "debug")]] ∧
    ([] : List LogEntry).length
      ≠ (Dict.getArrD [("logs", .arr [.obj [("level", .str "debug")]])] "logs").length :=
  ⟨rfl, rfl, by decide⟩

/-- Claim C5 (amended): each listing container materializes its sequence at
construction time: for Collection/Process/Job listings the sequence is
exactly the named primary array's elements in original order, and for
`LogsResponse` it is the retained entries (the whole array, wrapped as
`LogEntry`, when no filtering was requested); in every case, later mutation
of the source mapping (modelled by replacing the aliased `data`) leaves the
already-materialized sequence unchanged. -/
theorem listing_snapshot_immutable (d : Dict) :
    (∀ l, d.get? "collections" = some (JValue.arr l) →
      CollectionListingResponse.init d = Except.ok ⟨d, l⟩ ∧
      ∀ d' : Dict, ((⟨d, l⟩ : CollectionListingResponse).withData d').elems = l) ∧
    (∀ l, d.get? "processes" = some (JValue.arr l) →
      ProcessListingResponse.init d = Except.ok ⟨d, l⟩ ∧
      ∀ d' : Dict, ((⟨d, l⟩ : ProcessListingResponse).withData d').elems = l) ∧
    (∀ l, d.get? "jobs" = some (JValue.arr l) →
      JobListingResponse.init d = Except.ok ⟨d, l⟩ ∧
      ∀ d' : Dict, ((⟨d, l⟩ : JobListingResponse).withData d').elems = l) ∧
    (∀ ll (d' : Dict),
      ((LogsResponse.init d ll).withData d').entries = (LogsResponse.init d ll).entries) ∧
    (∀ l, d.get? "logs" = some (JValue.arr l) →
      (LogsResponse.init d none).entries = l.map LogEntry.mk) := by
  refine ⟨fun l hc => ⟨?_, fun _ => rfl⟩, fun l hp => ⟨?_, fun _ => rfl⟩,
    fun l hj => ⟨?_, fun _ => rfl⟩, fun ll d' => rfl, fun l hl => ?_⟩
  · simp [CollectionListingResponse.init, hc, JValue.asArr]
  · simp [ProcessListingResponse.init, hp, JValue.asArr]
  · simp [JobListingResponse.init, hj, JValue.asArr]
  · simp [LogsResponse.init, Dict.getArrD, hl, JValue.asArr]

/-- Witness for C5 (amended): concrete snapshots for all four listing types,
including stability of the materialized sequence under replacement of the
retained mapping. -/
theorem listing_snapshot_immutable_witness :
    Dict.get? [("collections", .arr [.str "c1", .str "c2"]), ("processes", .arr [.str "p"]),
        ("jobs", .arr []), ("logs", .arr [.obj [("id", .str "1")]])] "collections"
      = some (JValue.arr [.str "c1", .str "c2"]) ∧
    Dict.get? [("collections", .arr [.str "c1", .str "c2"]), ("processes", .arr [.str "p"]),
        ("jobs", .arr []), ("logs", .arr [.obj [("id", .str "1")]])] "logs"
      = some (JValue.arr [.obj [("id", .str "1")]]) ∧
    (CollectionListingResponse.init
        [("collections", .arr [.str "c1", .str "c2"]), ("processes", .arr [.str "p"]),
          ("jobs", .arr []), ("logs", .arr [.obj [("id", .str "1")]])]
      = Except.ok ⟨[("collections", .arr [.str "c1", .str "c2"]), ("processes", .arr [.str "p"]),
          ("jobs", .arr []), ("logs", .arr [.obj [("id", .str "1")]])],
          [.str "c1", .str "c2"]⟩ ∧
      ∀ d' : Dict,
        ((⟨[("collections", .arr [.str "c1", .str "c2"]), ("processes", .arr [.str "p"]),
            ("jobs", .arr []), ("logs", .arr [.obj [("id", .str "1")]])],
            [.str "c1", .str "c2"]⟩ : CollectionListingResponse).withData d').elems
          = [.str "c1", .str "c2"]) ∧
    (LogsResponse.init [("collections", .arr [.str "c1", .str "c2"]),
        ("processes", .arr [.str "p"]), ("jobs", .arr []),
        ("logs", .arr [.obj [("id", .str "1")]])] none).entries
      = [JValue.obj [("id", .str "1")]].map LogEntry.mk :=
  ⟨rfl, rfl,
    (listing_snapshot_immutable
        [("collections", .arr [.str "c1", .str "c2"]), ("processes", .arr [.str "p"]),
          ("jobs", .arr []), ("logs", .arr [.obj [("id", .str "1")]])]).1
      [.str "c1", .str "c2"] rfl,
    (listing_snapshot_immutable
        [("collections", .arr [.str "c1", .str "c2"]), ("processes", .arr [.str "p"]),
          ("jobs", .arr []), ("logs", .arr [.obj [("id", .str "1")]])]).2.2.2.2
      [.obj [("id", .str "1")]] rfl⟩

/-- Claim C7: for every listing container, when the retained mapping has a
`links` array whose entries each parse as a `Link`, the `links` property
returns one `Link` per entry in order, with `rel`/`href` preserved and
`type`/`title` exactly the optional lookups (absent when missing); when the
`links` key is absent, the property returns the empty sequence without
raising.  All four listing classes share this body. -/
theorem listing_links_property (data : Dict) :
    (data.get? "links" = none → linksOf data = Except.ok []) ∧
    (∀ l, data.get? "links" = some (JValue.arr l) →
      (∀ v ∈ l, ∃ lk, Link.from_dict v.asObj = Except.ok lk) →
      ∃ ls, linksOf data = Except.ok ls ∧
        List.Forall₂ (fun v lk =>
          v.asObj.get? "rel" = some lk.rel ∧
          v.asObj.get? "href" = some lk.href ∧
          lk.type = v.asObj.get? "type" ∧
          lk.title = v.asObj.get? "title") l ls) ∧
    (∀ r : CollectionListingResponse, r.links = linksOf r.data) ∧
    (∀ r : ProcessListingResponse, r.links = linksOf r.data) ∧
    (∀ r : JobListingResponse, r.links = linksOf r.data) ∧
    (∀ r : LogsResponse, r.links = linksOf r.data) := by
  refine ⟨fun hn => ?_, fun l hl hall => ?_, fun _ => rfl, fun _ => rfl,
    fun _ => rfl, fun _ => rfl⟩
  · simp [linksOf, Dict.getArrD, hn, mapME]
  · have harr : data.getArrD "links" = l := by simp [Dict.getArrD, hl, JValue.asArr]
    obtain ⟨ls, hls, hall2⟩ :=
      mapME_ok_of_forall_ok (fun v => Link.from_dict v.asObj) l hall
    refine ⟨ls, by simp [linksOf, harr, hls], ?_⟩
    refine List.Forall₂.imp (fun v lk hok => ?_) hall2
    exact (Link.from_dict_ok_iff _ _).mp hok

/-- Witness for C7: a concrete mapping with two link entries, one carrying
only `rel`/`href` and one also carrying `type` and `title`. -/
theorem listing_links_property_witness :
    Dict.get? [("links", .arr [.obj [("rel", .str "self"), ("href", .str "https://a")],
        .obj [("rel", .str "next"), ("href", .str "https://b"),
          ("type", .str "application/json"), ("title", .str "next page")]])] "links"
      = some (JValue.arr [.obj [("rel", .str "self"), ("href", .str "https://a")],
          .obj [("rel", .str "next"), ("href", .str "https://b"),
            ("type", .str "application/json"), ("title", .str "next page")]]) ∧
    (∃ ls, linksOf [("links", .arr [.obj [("rel", .str "self"), ("href", .str "https://a")],
        .obj [("rel", .str "next"), ("href", .str "https://b"),
          ("type", .str "application/json"), ("title", .str "next page")]])]
        = Except.ok ls ∧
      List.Forall₂ (fun v lk =>
          v.asObj.get? "rel" = some lk.rel ∧
          v.asObj.get? "href" = some lk.href ∧
          lk.type = v.asObj.get? "type" ∧
          lk.title = v.asObj.get? "title")
        [JValue.obj [("rel", .str "self"), ("href", .str "https://a")],
          .obj [("rel", .str "next"), ("href", .str "https://b"),
            ("type", .str "application/json"), ("title", .str "next page")]] ls) ∧
    linksOf [("nolinks", .arr [])] = Except.ok [] :=
  ⟨rfl,
    (listing_links_property
        [("links", .arr [.obj [("rel", .str "self"), ("href", .str "https://a")],
          .obj [("rel", .str "next"), ("href", .str "https://b"),
            ("type", .str "application/json"), ("title", .str "next page")]])]).2.1
      [JValue.obj [("rel", .str "self"), ("href", .str "https://a")],
        .obj [("rel", .str "next"), ("href", .str "https://b"),
          ("type", .str "application/json"), ("title", .str "next page")]]
      rfl
      (by
        intro v hv
        simp only [List.mem_cons, List.not_mem_nil, or_false] at hv
        rcases hv with rfl | rfl
        · exact ⟨_, rfl⟩
        · exact ⟨_, rfl⟩),
    (listing_links_property [("nolinks", .arr [])]).1 rfl⟩

/-- Counterexample to C8 as stated: the path graph and the inline graph do
not differ only in the introduced geometry-sourcing node — the spatial
aggregation node (a node present in both graphs) differs as well, because in
the path graph its `geometries` argument is a reference to the new
`read_vector` node while in the inline graph it is the inline geometry. -/
theorem zonal_aggregate_node_differs :
    (zonalStatsGraph "S2" 3 6 52 50
        (.path "/some/path/to/GeometryCollection.geojson") "mean").lookup "aggregatespatial1"
      ≠ (zonalStatsGraph "S2" 3 6 52 50
          (.inlineGeo (.obj [("type", .str "Polygon"), ("coordinates", .arr [])]))
          "mean").lookup "aggregatespatial1" ∧
    (zonalStatsGraph "S2" 3 6 52 50
        (.path "/some/path/to/GeometryCollection.geojson") "mean").lookup "readvector1"
      = some ⟨"read_vector",
          [("filename", .str "/some/path/to/GeometryCollection.geojson")], false⟩ := by
  refine ⟨fun h => ?_, rfl⟩
  have hdisc := congrArg
    (fun o : Option PGNode =>
      match o with
      | some node =>
        match node.arguments.lookup "geometries" with
        | some (.obj (("from_node", _) :: _)) => true
        | _ => false
      | none => false) h
  exact Bool.noConfusion hdisc

/-- Claim C8 (amended): in the chain load collection → bounding-box filter →
spatial aggregation, a file-path geometry yields a dedicated `read_vector`
node absent from the inline-geometry graph; the two graphs differ in exactly
that node plus the `geometries` argument of the aggregation node, which in
the path graph references the new node and in the inline graph holds the
inline geometry; every other node, and every other argument of the
aggregation node, is identical. -/
theorem zonal_path_vs_inline_graph (cid : String) (w e n s : Int) (g : JValue)
    (p red : String) :
    (zonalStatsGraph cid w e n s (.path p) red).lookup "readvector1"
      = some ⟨"read_vector", [("filename", .str p)], false⟩ ∧
    (zonalStatsGraph cid w e n s (.inlineGeo g) red).lookup "readvector1" = none ∧
    (zonalStatsGraph cid w e n s (.path p) red).lookup "aggregatespatial1"
      = some { aggregateNode "filterbbox1" (.obj [("from_node", .str "readvector1")]) red
          with result := true } ∧
    (zonalStatsGraph cid w e n s (.inlineGeo g) red).lookup "aggregatespatial1"
      = some { aggregateNode "filterbbox1" g red with result := true } ∧
    (∀ nid : String, nid ≠ "readvector1" → nid ≠ "aggregatespatial1" →
      (zonalStatsGraph cid w e n s (.path p) red).lookup nid
        = (zonalStatsGraph cid w e n s (.inlineGeo g) red).lookup nid) ∧
    (∀ k : String, k ≠ "geometries" →
      ((aggregateNode "filterbbox1" (.obj [("from_node", .str "readvector1")]) red).arguments).lookup k
        = ((aggregateNode "filterbbox1" g red).arguments).lookup k) ∧
    ((aggregateNode "filterbbox1" (.obj [("from_node", .str "readvector1")]) red).arguments).lookup "geometries"
      = some (.obj [("from_node", .str "readvector1")]) ∧
    ((aggregateNode "filterbbox1" g red).arguments).lookup "geometries" = some g := by
  refine ⟨rfl, rfl, rfl, rfl, fun nid h1 h2 => ?_, fun k hk => ?_, rfl, rfl⟩
  · have hb1 : (nid == "readvector1") = false := beq_eq_false_iff_ne.mpr h1
    have hb2 : (nid == "aggregatespatial1") = false := beq_eq_false_iff_ne.mpr h2
    simp [zonalStatsGraph, aggregate_spatial, filter_bbox, load_collection,
      CubeBuilder.flatten, List.lookup, hb1, hb2]
  · have hbk : (k == "geometries") = false := beq_eq_false_iff_ne.mpr hk
    simp [aggregateNode, List.lookup, hbk]

/-- Witness for C8 (amended): concrete chain over collection `S2`, bbox
(3, 6, 52, 50) and reducer `mean`, with a concrete path and a concrete
polygon; the nodes the two graphs share are looked up equal. -/
theorem zonal_path_vs_inline_graph_witness :
    ("loadcollection1" : String) ≠ "readvector1" ∧
    ("loadcollection1" : String) ≠ "aggregatespatial1" ∧
    ("data" : String) ≠ "geometries" ∧
    (zonalStatsGraph "S2" 3 6 52 50
        (.path "/some/path/to/GeometryCollection.geojson") "mean").lookup "loadcollection1"
      = (zonalStatsGraph "S2" 3 6 52 50
          (.inlineGeo (.obj [("type", .str "Polygon"), ("coordinates", .arr [])]))
          "mean").lookup "loadcollection1" ∧
    ((aggregateNode "filterbbox1" (.obj [("from_node", .str "readvector1")]) "mean").arguments).lookup "data"
      = ((aggregateNode "filterbbox1"
          (.obj [("type", .str "Polygon"), ("coordinates", .arr [])]) "mean").arguments).lookup "data" ∧
    (zonalStatsGraph "S2" 3 6 52 50
        (.path "/some/path/to/GeometryCollection.geojson") "mean").lookup "readvector1"
      = some ⟨"read_vector",
          [("filename", .str "/some/path/to/GeometryCollection.geojson")], false⟩ :=
  ⟨by decide, by decide, by decide,
    (zonal_path_vs_inline_graph "S2" 3 6 52 50
        (.obj [("type", .str "Polygon"), ("coordinates", .arr [])])
        "/some/path/to/GeometryCollection.geojson" "mean").2.2.2.2.1
      "loadcollection1" (by decide) (by decide),
    (zonal_path_vs_inline_graph "S2" 3 6 52 50
        (.obj [("type", .str "Polygon"), ("coordinates", .arr [])])
        "/some/path/to/GeometryCollection.geojson" "mean").2.2.2.2.2.1
      "data" (by decide),
    (zonal_path_vs_inline_graph "S2" 3 6 52 50
        (.obj [("type", .str "Polygon"), ("coordinates", .arr [])])
        "/some/path/to/GeometryCollection.geojson" "mean").1⟩
